import Mathlib

/-!
Shallow embedding of the Terneo thermostat HTTP client
(`src/terneo/thermostat.py` and `src/custom_components/terneo/thermostat.py`,
two near-duplicate variants of one `Thermostat` class).

Modelling conventions:
* JSON status payloads are flat string-to-string maps, modelled as
  association lists (`Dict`).  Python dict truthiness (empty dict is falsy)
  is modelled by passing `Option Dict` where `some data` stands for a truthy
  (non-empty) decoded response and `none` for the falsy failure sentinel
  `False` returned by `post`.
* Python exceptions that the code lets escape are modelled with
  `Except`/`Option PyErr` error components; `KeyError`/`ValueError` raised
  by `data[k]` / `float(s)` / `int(s)` are `PyErr`.
* Network traffic is explicit: each operation returns the list of HTTP
  requests it issues (`Request`), so "issues no request" is a provable
  statement.  The responses an operation would receive are parameters.
* Wall-clock time is `ℚ` (seconds); `time.sleep(1)` advances the dispatch
  instant by exactly one second.
* Machine floats: the decoders divide small decimal values by 16, which is
  exact in binary floating point, so `ℚ` is a faithful model on the values
  the device produces.
-/

namespace Terneo

deriving instance DecidableEq for Except

/-- A decoded flat JSON object mapping field names to string values. -/
def Dict : Type := List (String × String)

instance : DecidableEq Dict := by
  unfold Dict
  infer_instance

/-- `data[k]` as an optional lookup (Python raises `KeyError` when absent). -/
def dget (d : Dict) (k : String) : Option String :=
  List.lookup k d

/-- Python `d.get(k, default)`. -/
def dgetD (d : Dict) (k v : String) : String :=
  (dget d k).getD v

/-- Exceptions the client code can raise while decoding payloads. -/
inductive PyErr where
  | keyError (k : String)
  | valueError
deriving DecidableEq

/-- Numeric value of a list of decimal digit characters. -/
def digitsToNat (cs : List Char) : ℕ :=
  cs.foldl (fun a c => a * 10 + (c.toNat - 48)) 0

/-- All characters are decimal digits and there is at least one. -/
def allDigits (cs : List Char) : Bool :=
  !cs.isEmpty && cs.all (fun c => c.isDigit)

/-- Split a character list at the first `'.'`: the part before it and,
when a dot exists, the part after it. -/
def breakDot : List Char → List Char × Option (List Char)
  | [] => ([], none)
  | c :: rest =>
    if c = '.' then ([], some rest)
    else
      let p := breakDot rest
      (c :: p.1, p.2)

/-- Unsigned part of Python `float(s)`: digits with an optional decimal
point (`"320"`, `"3.5"`, `".5"`, `"5."`); `none` models `ValueError`
(a second dot makes the fractional part non-digit, hence `none`). -/
def pyFloatCore (cs : List Char) : Option ℚ :=
  match breakDot cs with
  | (w, none) => if allDigits w then some ((digitsToNat w : ℤ) : ℚ) else none
  | (w, some f) =>
      if (allDigits w || w.isEmpty) && (allDigits f || f.isEmpty)
          && !(w.isEmpty && f.isEmpty) then
        some ((digitsToNat w : ℚ) + (digitsToNat f : ℚ) / (10 ^ f.length))
      else none

/-- Python `float(s)` on the decimal strings the device produces;
`none` models an uncaught `ValueError`. -/
def pyFloat (s : String) : Option ℚ :=
  match s.toList with
  | '-' :: rest => (pyFloatCore rest).map (fun x => -x)
  | '+' :: rest => pyFloatCore rest
  | cs => pyFloatCore cs

/-- Python `int(s)` on decimal strings; `none` models `ValueError`. -/
def pyInt (s : String) : Option ℤ :=
  match s.toList with
  | '-' :: rest => if allDigits rest then some (-(digitsToNat rest : ℤ)) else none
  | '+' :: rest => if allDigits rest then some ((digitsToNat rest : ℤ)) else none
  | cs => if allDigits cs then some ((digitsToNat cs : ℤ)) else none

/-- `float(data[k])`: `KeyError` when the field is absent, `ValueError`
when it is not numeric. -/
def fieldFloat (d : Dict) (k : String) : Except PyErr ℚ :=
  match dget d k with
  | none => .error (.keyError k)
  | some s =>
    match pyFloat s with
    | none => .error .valueError
    | some x => .ok x

/-- `int(data[k])`: `KeyError` when the field is absent, `ValueError`
when it is not numeric. -/
def fieldInt (d : Dict) (k : String) : Except PyErr ℤ :=
  match dget d k with
  | none => .error (.keyError k)
  | some s =>
    match pyInt s with
    | none => .error .valueError
    | some x => .ok x

/-- Python truthiness of an optional string argument (`None` and `""` are
falsy). -/
def truthy : Option String → Bool
  | none => false
  | some s => !s.isEmpty

/-- `Thermostat.__init__` credential validation, lines 28-36 of
`src/terneo/thermostat.py` (identically lines 29-37 of the
`custom_components` variant).  The Python condition
`username or password and not username and password` is translated with
Python operator precedence (`or` binds weaker than `and`), i.e. as
`username or (password and (not username) and password)`.
`.error` models the raised `ValueError`; `.ok (some (u, p))` models
storing `HTTPBasicAuth(username, password)`; `.ok none` models
`self.auth = None`. -/
def initAuth (username password : Option String) :
    Except String (Option (Option String × Option String)) :=
  if truthy username || (truthy password && !truthy username && truthy password) then
    .error "Username and Password must both be specified, if either are specified."
  else if truthy username || truthy password then
    .ok (some (username, password))
  else
    .ok none

/-- Outcome of the underlying `requests.post` transport call:
the call raised, or it returned a response whose body decodes to
`some content` (a JSON object) or fails to decode (`none`). -/
inductive TransportResult where
  | failure
  | response (body : Option Dict)
deriving DecidableEq

/-- `Thermostat.post` of `src/custom_components/terneo/thermostat.py`,
lines 100-122, restricted to its result value: `none` is the falsy
sentinel `False`.  A raised transport exception returns `False`; a
`JSONDecodeError` (and any other decode exception) returns `False`; a
decoded body whose `status` field equals `"timeout"` returns `False`
(the serial-number redaction there only affects logging); otherwise the
decoded content is returned. -/
def cc_post (r : TransportResult) : Option Dict :=
  match r with
  | .failure => none
  | .response none => none
  | .response (some content) =>
    if dgetD content "status" "" = "timeout" then none else some content

/-- `Thermostat.post` of `src/terneo/thermostat.py`, lines 98-108: only
the transport call is guarded by `try`/`except` (returning `False`);
`content = r.json()` is unguarded, so a body that fails to JSON-decode
raises an uncaught exception (modelled as `.error`), and the decoded
content is returned unconditionally — there is no `"timeout"` check. -/
def terneo_post (r : TransportResult) : Except String (Option Dict) :=
  match r with
  | .failure => .ok none
  | .response none => .error "JSONDecodeError"
  | .response (some content) => .ok (some content)

/-- The throttling test of `post`: `start - last < 1` where `last` is
`self._last_request` and `start` is `time.time()` at entry
(`src/custom_components/terneo/thermostat.py` lines 96-98;
`src/terneo/thermostat.py` lines 95-96, whose extra `or self._in_progress`
disjunct is always false since `_in_progress` is set to `False` in
`__init__` and never changed). -/
def postSleeps (last start : ℚ) : Bool :=
  decide (start - last < 1)

/-- Timing behaviour of one `post` call: `dispatch` is the instant
`requests.post` is issued (after the conditional `time.sleep(1)`), and
`newLast` the value stored into `self._last_request` when the attempt
completes `dur ≥ 0` seconds later (it is updated on both the success and
the exception path). -/
structure PostTiming where
  dispatch : ℚ
  newLast : ℚ
deriving DecidableEq

/-- One `post` call starting at wall-clock `start` with stored
`_last_request = last`: it sleeps one second exactly when
`start - last < 1`, then dispatches. -/
def postTiming (last start dur : ℚ) : PostTiming :=
  ⟨if start - last < 1 then start + 1 else start,
   (if start - last < 1 then start + 1 else start) + dur⟩

/-- Cached mode value: `src/terneo`'s `turn_off` and `get_mode` store the
Python bool `False` in `self._mode`, while integer mode codes are stored
otherwise; `custom_components` only ever stores integers. -/
inductive ModeVal where
  | int (n : ℤ)
  | bool (b : Bool)
deriving DecidableEq

/-- The mutable per-instance caches set to `None` in `__init__`
(`_setpoint`, `_temperature`, `_mode`, `_state`). -/
structure TState where
  setpoint : Option ℚ
  temperature : Option ℚ
  mode : Option ModeVal
  state : Option Bool
deriving DecidableEq

/-- The state right after `__init__`: all four caches unset. -/
def initState : TState :=
  ⟨none, none, none, none⟩

/-- An HTTP request issued by the client, as observable traffic:
`statusReq` is `post(json={"cmd": 4, ...})` from `status()`, `paramsReq`
is `post(json={"cmd": 1, ...})` from `is_on()`, and `parWrite l` is
`post(json={"par": l, ...})` from the mutators. -/
inductive Request where
  | statusReq
  | paramsReq
  | parWrite (par : List (ℤ × ℤ × String))
deriving DecidableEq

/-- A parameter-table response entry `[id, type, value]` (`cmd=1`). -/
def Par : Type := ℤ × ℤ × String

instance : DecidableEq Par := by
  unfold Par
  infer_instance

/-- The `for a in r['par']: if a[0] == 125: return a[2] == "0"` scan of
`is_on`; `none` is falling off the end of the loop. -/
def scanPar : List Par → Option Bool
  | [] => none
  | (i, _, v) :: rest => if i = 125 then some (v == "0") else scanPar rest

/-- `src/terneo` `is_on` (lines 117-122): its `cmd=1` response is
`some pars` when the `post` result was truthy and contained a `'par'`
key, else `none`; with no trailing `return`, the fall-through result is
Python `None`, modelled as `none`. -/
def terneo_is_on (resp : Option (List Par)) : Option Bool :=
  resp.bind scanPar

/-- Truthiness of `src/terneo` `is_on`'s result (`None` is falsy). -/
def pyTruthy : Option Bool → Bool
  | none => false
  | some b => b

/-- `custom_components` `is_on` (lines 131-141): same scan but with an
explicit trailing `return False`. -/
def cc_is_on (resp : Option (List Par)) : Bool :=
  (resp.bind scanPar).getD false

/-- `get_temperature(data)` = `float(data['t.1']) / 16` (identical in
both variants). -/
def get_temperature (data : Dict) : Except PyErr ℚ :=
  (fieldFloat data "t.1").map (fun x => x / 16)

/-- `get_setpoint(data)` = `float(data['t.5']) / 16` (identical in both
variants). -/
def get_setpoint (data : Dict) : Except PyErr ℚ :=
  (fieldFloat data "t.5").map (fun x => x / 16)

/-- `get_state(data)` = `int(data['f.0']) == 1` (identical in both
variants). -/
def get_state (data : Dict) : Except PyErr Bool :=
  (fieldInt data "f.0").map (fun n => n == 1)

/-- `src/terneo` `get_mode(data)` (lines 173-176): unconditionally calls
`is_on()` (one `cmd=1` request, whatever `data` contains); `not is_on()`
is true when the call returned `False` or fell through to `None`, and
then the Python bool `False` is returned; otherwise `int(data['m.1'])`.
`isOnResp` is the parameter-table response `is_on` would receive.  The
second component is the list of requests issued. -/
def terneo_get_mode (data : Dict) (isOnResp : Option (List Par)) :
    Except PyErr ModeVal × List Request :=
  if pyTruthy (terneo_is_on isOnResp) then
    ((fieldInt data "m.1").map .int, [.paramsReq])
  else
    (.ok (.bool false), [.paramsReq])

/-- `custom_components` `get_mode(data)` (lines 193-202): when `'f.16'`
is in `data`, power is `int(data['f.16']) == 0` and no further request
is made; otherwise power comes from a second round-trip via `is_on()`
(one `cmd=1` request).  If the device is off the result is `-1`, else
`int(data['m.1'])`. -/
def cc_get_mode (data : Dict) (isOnResp : Option (List Par)) :
    Except PyErr ModeVal × List Request :=
  match dget data "f.16" with
  | some s =>
    (match pyInt s with
     | none => .error .valueError
     | some n =>
       if n = 0 then (fieldInt data "m.1").map .int else .ok (.int (-1)), [])
  | none =>
    (if cc_is_on isOnResp then (fieldInt data "m.1").map .int else .ok (.int (-1)),
     [.paramsReq])

/-- The lazy `temperature` property (identical in both variants):
return the cache if set, else call `status()` — whose truthy result or
falsy sentinel is `statusResp` — and on truthy data decode and cache
`get_temperature(data)`, letting its exceptions escape.  Result:
(returned value or escaped exception, state after, requests issued). -/
def temperature_prop (st : TState) (statusResp : Option Dict) :
    Except PyErr (Option ℚ) × TState × List Request :=
  match st.temperature with
  | some t => (.ok (some t), st, [])
  | none =>
    match statusResp with
    | none => (.ok none, st, [.statusReq])
    | some data =>
      match get_temperature data with
      | .error e => (.error e, st, [.statusReq])
      | .ok t => (.ok (some t), { st with temperature := some t }, [.statusReq])

/-- The lazy `state` property (identical in both variants), decoding
`f.0` via `get_state`. -/
def state_prop (st : TState) (statusResp : Option Dict) :
    Except PyErr (Option Bool) × TState × List Request :=
  match st.state with
  | some s => (.ok (some s), st, [])
  | none =>
    match statusResp with
    | none => (.ok none, st, [.statusReq])
    | some data =>
      match get_state data with
      | .error e => (.error e, st, [.statusReq])
      | .ok s => (.ok (some s), { st with state := some s }, [.statusReq])

/-- The lazy `mode` property of `src/terneo` (lines 158-171): cached
value if `self._mode is not None` (note `False` stored by `turn_off`
satisfies this), else a `status()` round-trip and, on truthy data,
`get_mode(data)` which itself issues the `is_on()` request. -/
def terneo_mode_prop (st : TState) (statusResp : Option Dict)
    (isOnResp : Option (List Par)) :
    Except PyErr (Option ModeVal) × TState × List Request :=
  match st.mode with
  | some m => (.ok (some m), st, [])
  | none =>
    match statusResp with
    | none => (.ok none, st, [.statusReq])
    | some data =>
      match terneo_get_mode data isOnResp with
      | (.error e, log) => (.error e, st, .statusReq :: log)
      | (.ok m, log) => (.ok (some m), { st with mode := some m }, .statusReq :: log)

/-- The lazy `mode` property of `custom_components` (lines 178-191). -/
def cc_mode_prop (st : TState) (statusResp : Option Dict)
    (isOnResp : Option (List Par)) :
    Except PyErr (Option ModeVal) × TState × List Request :=
  match st.mode with
  | some m => (.ok (some m), st, [])
  | none =>
    match statusResp with
    | none => (.ok none, st, [.statusReq])
    | some data =>
      match cc_get_mode data isOnResp with
      | (.error e, log) => (.error e, st, .statusReq :: log)
      | (.ok m, log) => (.ok (some m), { st with mode := some m }, .statusReq :: log)

/-- `src/terneo` `turn_on` (lines 206-207): posts
`par=[[125, 7, "0"]]`, touching no cache. -/
def terneo_turn_on (st : TState) : TState × List Request :=
  (st, [.parWrite [(125, 7, "0")]])

/-- `src/terneo` `turn_off` (lines 209-211): sets `self._mode = False`
and posts `par=[[125, 7, "1"]]`. -/
def terneo_turn_off (st : TState) : TState × List Request :=
  ({ st with mode := some (.bool false) }, [.parWrite [(125, 7, "1")]])

/-- `custom_components` `turn_on` (lines 231-232). -/
def cc_turn_on (st : TState) : TState × List Request :=
  (st, [.parWrite [(125, 7, "0")]])

/-- `custom_components` `turn_off` (lines 234-235): it only posts
`par=[[125, 7, "1"]]` — unlike `src/terneo`, it does not touch
`self._mode`. -/
def cc_turn_off (st : TState) : TState × List Request :=
  (st, [.parWrite [(125, 7, "1")]])

/-- `src/terneo` `mode` setter (lines 178-186): `val = int(val)` (the
domain is restricted to integers, on which `int` is the identity); a
value outside `[0, 1]` raises `ValueError` before any cache write or
request; otherwise `self._mode = 3 if val == 1 else 0` is written first
and then `par=[[125, 7, "0"], [2, 2, str(val)]]` is posted (the `post`
result is ignored, so the cache write stands even if the POST failed). -/
def terneo_mode_setter (st : TState) (val : ℤ) :
    Option PyErr × TState × List Request :=
  if val = 0 ∨ val = 1 then
    (none, { st with mode := some (.int (if val = 1 then 3 else 0)) },
     [.parWrite [(125, 7, "0"), (2, 2, toString val)]])
  else
    (some .valueError, st, [])

/-- `custom_components` `mode` setter (lines 204-210): same validation,
but no cache write — only the POST. -/
def cc_mode_setter (st : TState) (val : ℤ) :
    Option PyErr × TState × List Request :=
  if val = 0 ∨ val = 1 then
    (none, st, [.parWrite [(125, 7, "0"), (2, 2, toString val)]])
  else
    (some .valueError, st, [])

/-- `src/terneo` `update` (lines 213-224): both branches of the
`time.time() - self._last_request > 10` test call `status()` (the `else`
branch merely sleeps first), so a status request is always issued; on a
truthy result the four caches are assigned in source order (setpoint,
temperature, mode, state), each decoder's exception escaping with the
earlier assignments already performed; on the falsy sentinel nothing is
written.  `get_mode` inside issues its own `is_on()` request. -/
def terneo_update (st : TState) (statusResp : Option Dict)
    (isOnResp : Option (List Par)) :
    Option PyErr × TState × List Request :=
  match statusResp with
  | none => (none, st, [.statusReq])
  | some data =>
    match get_setpoint data with
    | .error e => (some e, st, [.statusReq])
    | .ok sp =>
      match get_temperature data with
      | .error e => (some e, { st with setpoint := some sp }, [.statusReq])
      | .ok t =>
        match terneo_get_mode data isOnResp with
        | (.error e, log) =>
          (some e, { st with setpoint := some sp, temperature := some t },
           .statusReq :: log)
        | (.ok m, log) =>
          match get_state data with
          | .error e =>
            (some e,
             { st with setpoint := some sp, temperature := some t, mode := some m },
             .statusReq :: log)
          | .ok s => (none, ⟨some sp, some t, some m, some s⟩, .statusReq :: log)

/-- `custom_components` `update` (lines 237-243): one unconditional
`status()` call, then the same four assignments with this variant's
`get_mode`. -/
def cc_update (st : TState) (statusResp : Option Dict)
    (isOnResp : Option (List Par)) :
    Option PyErr × TState × List Request :=
  match statusResp with
  | none => (none, st, [.statusReq])
  | some data =>
    match get_setpoint data with
    | .error e => (some e, st, [.statusReq])
    | .ok sp =>
      match get_temperature data with
      | .error e => (some e, { st with setpoint := some sp }, [.statusReq])
      | .ok t =>
        match cc_get_mode data isOnResp with
        | (.error e, log) =>
          (some e, { st with setpoint := some sp, temperature := some t },
           .statusReq :: log)
        | (.ok m, log) =>
          match get_state data with
          | .error e =>
            (some e,
             { st with setpoint := some sp, temperature := some t, mode := some m },
             .statusReq :: log)
          | .ok s => (none, ⟨some sp, some t, some m, some s⟩, .statusReq :: log)

/-! Concrete inputs used by several theorems. -/

/-- The status payload of the spec's decoding test. -/
def data8 : Dict := [("t.1", "320"), ("t.5", "288"), ("m.1", "3"), ("f.0", "1")]

/-- A `cmd=1` parameter-table response whose parameter `125` is `"0"`
(device powered on). -/
def parsOn : List Par := [(125, 7, "0")]

/-- A status payload of newer firmware whose power flag `f.16` is `"1"`
(device powered off under the `f.16` convention). -/
def data516 : Dict := [("f.16", "1"), ("m.1", "3")]

/-- A client state whose mode cache holds the integer mode code `3`. -/
def st3 : TState := ⟨none, none, some (.int 3), none⟩

/-- C1: the spec claims constructing with both username and password
succeeds (storing basic-auth credentials), with neither succeeds with no
credentials, and with exactly one raises.  The code's condition
`username or password and not username and password` parses as
`username or (password and not username and password)`, which is truthy
whenever either argument is truthy — so the both-present case raises
`ValueError` too, and the `HTTPBasicAuth` branch is unreachable.  This
theorem evaluates the embedded validation on all four shapes of input,
exhibiting the divergence at the both-present one. -/
theorem c1_credential_validation :
    initAuth (some "user") (some "pass") =
      .error "Username and Password must both be specified, if either are specified." ∧
    initAuth (some "user") none =
      .error "Username and Password must both be specified, if either are specified." ∧
    initAuth none (some "pass") =
      .error "Username and Password must both be specified, if either are specified." ∧
    initAuth none none = .ok none := by
  decide

/-- C2 counterexample: in `src/terneo/thermostat.py`, `post` does not
return the falsy sentinel on a JSON-decode failure (the uncaught
`JSONDecodeError` escapes to the caller), and a decoded body whose
`status` field is `"timeout"` is returned as a normal truthy result
rather than the sentinel — refuting the claim that every `post` in the
repository returns `False` without raising in those two situations. -/
theorem c2_terneo_post_counterexample :
    terneo_post (.response none) = .error "JSONDecodeError" ∧
    terneo_post (.response none) ≠ .ok none ∧
    terneo_post (.response (some [("status", "timeout")])) =
      .ok (some [("status", "timeout")]) ∧
    terneo_post (.response (some [("status", "timeout")])) ≠ .ok none := by
  decide

/-- C2 (amended): in the `custom_components` variant, `post` returns the
falsy sentinel — and raises nothing — on transport failure, on
JSON-decode failure, and exactly on a decoded body whose `status` field
equals `"timeout"`; in the `src/terneo` variant only transport failure
yields the sentinel, while a JSON-decode failure raises and any decoded
body (timeout status included) is returned as-is. -/
theorem c2_post_failure_sentinel :
    cc_post .failure = none ∧
    cc_post (.response none) = none ∧
    (∀ c : Dict, cc_post (.response (some c)) = none ↔ dgetD c "status" "" = "timeout") ∧
    terneo_post .failure = .ok none ∧
    terneo_post (.response none) = .error "JSONDecodeError" ∧
    (∀ c : Dict, terneo_post (.response (some c)) = .ok (some c)) := by
  refine ⟨rfl, rfl, ?_, rfl, rfl, fun c => rfl⟩
  intro c
  simp only [cc_post]
  split
  · simp_all
  · simp_all

/-- C3: `post` sleeps one second exactly when less than one second of
wall-clock time has elapsed since the stored `_last_request`; and for
two consecutive `post` calls of one client — the second starting no
earlier than the instant the first stored into `_last_request`, which is
at least `dur1 ≥ 0` seconds after the first dispatch — the two dispatch
instants are at least one second apart. -/
theorem c3_throttle :
    (∀ last start : ℚ, postSleeps last start = true ↔ start - last < 1) ∧
    (∀ last s1 dur1 s2 dur2 : ℚ, 0 ≤ dur1 →
      (postTiming last s1 dur1).newLast ≤ s2 →
      1 ≤ (postTiming (postTiming last s1 dur1).newLast s2 dur2).dispatch
            - (postTiming last s1 dur1).dispatch) := by
  constructor
  · intro last start
    simp [postSleeps]
  · intro last s1 dur1 s2 dur2 hdur hseq
    simp only [postTiming] at hseq ⊢
    split_ifs at hseq ⊢ <;> linarith

/-- C3 witness: two calls at wall-clock instants `0` and `1` with
instantaneous transport; the first dispatches at `1` (after its sleep),
the second at `2`. -/
theorem c3_throttle_witness :
    1 ≤ (postTiming (postTiming 0 0 0).newLast 1 0).dispatch -
          (postTiming 0 0 0).dispatch :=
  c3_throttle.2 0 0 0 1 0 (by norm_num) (by norm_num [postTiming])

/-- C4 counterexample: in `custom_components`, `turn_off` does not
invalidate the cached mode — starting from a state whose mode cache
holds `3`, after `turn_off` a mode read still returns `3` from the
cache, not the off sentinel — refuting the claim for that variant. -/
theorem c4_cc_turn_off_counterexample :
    cc_turn_off st3 = (st3, [.parWrite [(125, 7, "1")]]) ∧
    cc_mode_prop (cc_turn_off st3).1 none none = (.ok (some (.int 3)), st3, []) ∧
    (cc_mode_prop (cc_turn_off st3).1 none none).1 ≠ .ok (some (.int (-1))) ∧
    (cc_mode_prop (cc_turn_off st3).1 none none).1 ≠ .ok (some (.bool false)) := by
  decide

/-- C4 (amended): both variants' `turn_on`/`turn_off` post parameter
`125` set to `"0"`/`"1"` respectively; in the `src/terneo` variant
`turn_off` additionally sets the cached mode to the Python bool `False`,
so a subsequent mode read (before any `update()`) returns that off
sentinel from the cache and issues no request; the `custom_components`
variant's `turn_off` leaves all caches untouched. -/
theorem c4_turn_off_behaviour (st : TState) (resp : Option Dict)
    (ion : Option (List Par)) :
    terneo_turn_off st =
      ({ st with mode := some (.bool false) }, [.parWrite [(125, 7, "1")]]) ∧
    terneo_turn_on st = (st, [.parWrite [(125, 7, "0")]]) ∧
    cc_turn_off st = (st, [.parWrite [(125, 7, "1")]]) ∧
    cc_turn_on st = (st, [.parWrite [(125, 7, "0")]]) ∧
    terneo_mode_prop (terneo_turn_off st).1 resp ion =
      (.ok (some (.bool false)), (terneo_turn_off st).1, []) := by
  exact ⟨rfl, rfl, rfl, rfl, rfl⟩

/-- C5 counterexample: in `src/terneo/thermostat.py`, `get_mode` does
not select a strategy on the presence of `f.16`: on a payload whose
`f.16` is `"1"` (off, under the claimed `f.16` convention) it still
issues the `is_on()` round-trip (the request list is non-empty) and,
with that round-trip reporting power on, returns the mode code `3`
rather than the off sentinel — refuting the claim for that variant. -/
theorem c5_terneo_f16_counterexample :
    terneo_get_mode data516 (some parsOn) = (.ok (.int 3), [.paramsReq]) ∧
    (terneo_get_mode data516 (some parsOn)).2 ≠ [] ∧
    (terneo_get_mode data516 (some parsOn)).1 ≠ .ok (.bool false) ∧
    (terneo_get_mode data516 (some parsOn)).1 ≠ .ok (.int (-1)) := by
  decide

/-- C5 (amended): the two-strategy selection on the presence of `f.16`
is the `custom_components` variant's: with `f.16` absent it issues one
`is_on()` round-trip and uses its answer, with `f.16` present it issues
no additional request and the device is on iff `int(f.16) = 0`; in
either case the result is `-1` when off and `int(m.1)` when on.  The
`src/terneo` variant instead always issues the `is_on()` round-trip,
ignores `f.16`, and returns the Python bool `False` as its off
sentinel, else `int(m.1)`. -/
theorem c5_mode_strategies (data : Dict) (ion : Option (List Par)) (x : String)
    (n m : ℤ) :
    (dget data "f.16" = none →
      (cc_get_mode data ion).2 = [.paramsReq] ∧
      (cc_is_on ion = false → (cc_get_mode data ion).1 = .ok (.int (-1))) ∧
      (cc_is_on ion = true → fieldInt data "m.1" = .ok m →
        (cc_get_mode data ion).1 = .ok (.int m))) ∧
    (dget data "f.16" = some x → pyInt x = some n →
      (cc_get_mode data ion).2 = [] ∧
      (n ≠ 0 → (cc_get_mode data ion).1 = .ok (.int (-1))) ∧
      (n = 0 → fieldInt data "m.1" = .ok m →
        (cc_get_mode data ion).1 = .ok (.int m))) ∧
    (terneo_get_mode data ion).2 = [.paramsReq] ∧
    (pyTruthy (terneo_is_on ion) = false →
      (terneo_get_mode data ion).1 = .ok (.bool false)) ∧
    (pyTruthy (terneo_is_on ion) = true → fieldInt data "m.1" = .ok m →
      (terneo_get_mode data ion).1 = .ok (.int m)) := by
  refine ⟨?_, ?_, ?_, ?_, ?_⟩
  · intro h16
    refine ⟨?_, ?_, ?_⟩
    · simp [cc_get_mode, h16]
    · intro hoff
      simp [cc_get_mode, h16, hoff]
    · intro hon hm
      simp [cc_get_mode, h16, hon, hm, Except.map]
  · intro h16 hn
    refine ⟨?_, ?_, ?_⟩
    · simp [cc_get_mode, h16]
    · intro hne
      simp [cc_get_mode, h16, hn, hne]
    · intro h0 hm
      simp [cc_get_mode, h16, hn, h0, hm, Except.map]
  · simp only [terneo_get_mode]
    split <;> rfl
  · intro hoff
    simp [terneo_get_mode, hoff]
  · intro hon hm
    simp [terneo_get_mode, hon, hm, Except.map]

/-- C5 witness: the amended theorem applied at concrete payloads — a
newer-firmware payload with `f.16 = "1"` decodes to the off sentinel
`-1` with no round-trip answer consulted, and the `f.16`-less payload
`data8` decodes to mode `3` under a power-on `is_on` answer in both
variants. -/
theorem c5_mode_strategies_witness :
    (cc_get_mode data516 none).1 = .ok (.int (-1)) ∧
    (cc_get_mode data8 (some parsOn)).1 = .ok (.int 3) ∧
    (terneo_get_mode data8 (some parsOn)).1 = .ok (.int 3) := by
  refine ⟨?_, ?_, ?_⟩
  · exact ((c5_mode_strategies data516 none "1" 1 3).2.1 (by decide)
      (by decide)).2.1 (by decide)
  · exact ((c5_mode_strategies data8 (some parsOn) "1" 1 3).1 (by decide)).2.2
      (by decide) (by decide)
  · exact (c5_mode_strategies data8 (some parsOn) "1" 1 3).2.2.2.2
      (by decide) (by decide)

/-- C6: for an integer other than `0` or `1`, both variants' mode
setter raises `ValueError`, issues no request, and leaves the client
state unchanged; for `0` or `1` both post the parameter-write
`par=[[125, 7, "0"], [2, 2, str(val)]]`, whose parameter-`2` entry
carries the string form of the value (the `src/terneo` variant also
writes its translated mode into the cache). -/
theorem c6_mode_setter (st : TState) (val : ℤ) :
    (val ≠ 0 → val ≠ 1 →
      terneo_mode_setter st val = (some .valueError, st, []) ∧
      cc_mode_setter st val = (some .valueError, st, [])) ∧
    (val = 0 ∨ val = 1 →
      terneo_mode_setter st val =
        (none, { st with mode := some (.int (if val = 1 then 3 else 0)) },
         [.parWrite [(125, 7, "0"), (2, 2, toString val)]]) ∧
      cc_mode_setter st val =
        (none, st, [.parWrite [(125, 7, "0"), (2, 2, toString val)]])) := by
  constructor
  · intro h0 h1
    constructor <;> simp [terneo_mode_setter, cc_mode_setter, h0, h1]
  · rintro (rfl | rfl) <;>
      exact ⟨rfl, rfl⟩

/-- C6 witness: value `5` is rejected with no request and no state
change; value `1` posts the parameter-write with parameter `2` set to
`"1"`. -/
theorem c6_mode_setter_witness :
    terneo_mode_setter initState 5 = (some .valueError, initState, []) ∧
    cc_mode_setter initState 1 =
      (none, initState, [.parWrite [(125, 7, "0"), (2, 2, toString (1 : ℤ))]]) :=
  ⟨((c6_mode_setter initState 5).1 (by decide) (by decide)).1,
   ((c6_mode_setter initState 1).2 (Or.inr rfl)).2⟩

/-- C7: both variants' `update` always issue a fresh status request —
first in the request list and independently of how much of the cache is
already populated; when `status()` returns the falsy sentinel all four
caches are left unchanged; when it returns data on which the four
decoders succeed, every cache is overwritten with the value decoded
from that one response (the mode decoder additionally consuming its
power-detection answer `ion`), whatever the previous cache contents. -/
theorem c7_update (st st' : TState) (data : Dict) (ion : Option (List Par))
    (sp t : ℚ) (mT mC : ModeVal) (s : Bool)
    (hsp : get_setpoint data = .ok sp) (ht : get_temperature data = .ok t)
    (hmT : (terneo_get_mode data ion).1 = .ok mT)
    (hmC : (cc_get_mode data ion).1 = .ok mC)
    (hs : get_state data = .ok s) :
    terneo_update st none ion = (none, st, [.statusReq]) ∧
    cc_update st none ion = (none, st, [.statusReq]) ∧
    (terneo_update st (some data) ion).2.2 = (terneo_update st' (some data) ion).2.2 ∧
    (cc_update st (some data) ion).2.2 = (cc_update st' (some data) ion).2.2 ∧
    terneo_update st (some data) ion =
      (none, ⟨some sp, some t, some mT, some s⟩,
       .statusReq :: (terneo_get_mode data ion).2) ∧
    cc_update st (some data) ion =
      (none, ⟨some sp, some t, some mC, some s⟩,
       .statusReq :: (cc_get_mode data ion).2) := by
  obtain ⟨lT, hT⟩ : ∃ l, terneo_get_mode data ion = (.ok mT, l) :=
    ⟨(terneo_get_mode data ion).2, by rw [← hmT]⟩
  obtain ⟨lC, hC⟩ : ∃ l, cc_get_mode data ion = (.ok mC, l) :=
    ⟨(cc_get_mode data ion).2, by rw [← hmC]⟩
  have hTu : ∀ u : TState, terneo_update u (some data) ion =
      (none, ⟨some sp, some t, some mT, some s⟩,
       .statusReq :: (terneo_get_mode data ion).2) := by
    intro u
    simp [terneo_update, hsp, ht, hs, hT]
  have hCu : ∀ u : TState, cc_update u (some data) ion =
      (none, ⟨some sp, some t, some mC, some s⟩,
       .statusReq :: (cc_get_mode data ion).2) := by
    intro u
    simp [cc_update, hsp, ht, hs, hC]
  refine ⟨rfl, rfl, ?_, ?_, hTu st, hCu st⟩
  · rw [hTu st, hTu st']
  · rw [hCu st, hCu st']

/-- C7 witness: `update` on the spec's payload `data8` with a power-on
`is_on` answer, starting once from the empty cache and once from a
populated one, repopulates all four caches with 18, 20, mode 3 and
relay-on in both variants. -/
theorem c7_update_witness :
    terneo_update initState (some data8) (some parsOn) =
      (none, ⟨some 18, some 20, some (.int 3), some true⟩,
       .statusReq :: (terneo_get_mode data8 (some parsOn)).2) ∧
    cc_update st3 (some data8) (some parsOn) =
      (none, ⟨some 18, some 20, some (.int 3), some true⟩,
       .statusReq :: (cc_get_mode data8 (some parsOn)).2) := by
  have h := c7_update initState st3 data8 (some parsOn) 18 20 (.int 3) (.int 3) true
    (by
      have hf : pyFloat "288" = some 288 := by decide
      simp [get_setpoint, fieldFloat, data8, dget, List.lookup, hf, Except.map]
      norm_num)
    (by
      have hf : pyFloat "320" = some 320 := by decide
      simp [get_temperature, fieldFloat, data8, dget, List.lookup, hf, Except.map]
      norm_num)
    (by decide) (by decide) (by decide)
  exact ⟨h.2.2.2.2.1, h.2.2.2.2.2⟩

/-- C8: on the spec's payload `data8` with the 16-divisor decoders, the
temperature decodes to 20, the setpoint to 18 and the relay state to
`true`; and in general `get_temperature`/`get_setpoint` return the
parsed float of `t.1`/`t.5` divided by 16 (raising `ValueError` on a
non-numeric string), while `get_state` is true iff `int(f.0)` equals
1. -/
theorem c8_status_decoding (d : Dict) (x : String) :
    get_temperature data8 = .ok 20 ∧
    get_setpoint data8 = .ok 18 ∧
    get_state data8 = .ok true ∧
    (dget d "t.1" = some x →
      get_temperature d =
        (pyFloat x).elim (.error .valueError) (fun q => .ok (q / 16))) ∧
    (dget d "t.5" = some x →
      get_setpoint d =
        (pyFloat x).elim (.error .valueError) (fun q => .ok (q / 16))) ∧
    (∀ n : ℤ, dget d "f.0" = some x → pyInt x = some n →
      get_state d = .ok (n == 1)) := by
  refine ⟨?_, ?_, ?_, ?_, ?_, ?_⟩
  · have hf : pyFloat "320" = some 320 := by decide
    simp [get_temperature, fieldFloat, data8, dget, List.lookup, hf, Except.map]
    norm_num
  · have hf : pyFloat "288" = some 288 := by decide
    simp [get_setpoint, fieldFloat, data8, dget, List.lookup, hf, Except.map]
    norm_num
  · decide
  · intro h
    simp only [get_temperature, fieldFloat, h]
    cases pyFloat x <;> simp [Except.map, Option.elim]
  · intro h
    simp only [get_setpoint, fieldFloat, h]
    cases pyFloat x <;> simp [Except.map, Option.elim]
  · intro n h hn
    simp [get_state, fieldInt, h, hn, Except.map]

/-- C8 witness: the general decoding equations applied to `data8`'s own
fields. -/
theorem c8_status_decoding_witness :
    get_temperature data8 =
      (pyFloat "320").elim (.error .valueError) (fun q => .ok (q / 16)) ∧
    get_state data8 = .ok ((1 : ℤ) == 1) :=
  ⟨(c8_status_decoding data8 "320").2.2.2.1 (by decide),
   (c8_status_decoding data8 "1").2.2.2.2.2 1 (by decide) (by decide)⟩

/-- C9 (implicit): when a cache is unset and `status()` returns truthy
data that lacks the required field or maps it to a non-numeric string,
the lazy property getters let the `KeyError`/`ValueError` escape (the
state is left unchanged and the one status request was issued) instead
of returning the falsy sentinel. -/
theorem c9_malformed_status (st : TState) (d1 d2 d3 : Dict) (x : String)
    (htc : st.temperature = none) (hsc : st.state = none)
    (h1 : dget d1 "t.1" = none)
    (h2 : dget d2 "t.1" = some x) (hx : pyFloat x = none)
    (h3 : dget d3 "f.0" = none) :
    temperature_prop st (some d1) = (.error (.keyError "t.1"), st, [.statusReq]) ∧
    temperature_prop st (some d2) = (.error .valueError, st, [.statusReq]) ∧
    state_prop st (some d3) = (.error (.keyError "f.0"), st, [.statusReq]) := by
  refine ⟨?_, ?_, ?_⟩
  · simp [temperature_prop, get_temperature, fieldFloat, htc, h1, Except.map]
  · simp [temperature_prop, get_temperature, fieldFloat, htc, h2, hx, Except.map]
  · simp [state_prop, get_state, fieldInt, hsc, h3, Except.map]

/-- C9 witness: from the freshly constructed state, a payload without
`t.1` raises `KeyError`, a payload whose `t.1` is `"abc"` raises
`ValueError`, and a payload without `f.0` raises `KeyError` on the state
read. -/
theorem c9_malformed_status_witness :
    temperature_prop initState (some [("f.0", "1")]) =
      (.error (.keyError "t.1"), initState, [.statusReq]) ∧
    temperature_prop initState (some [("t.1", "abc")]) =
      (.error .valueError, initState, [.statusReq]) ∧
    state_prop initState (some [("t.1", "320")]) =
      (.error (.keyError "f.0"), initState, [.statusReq]) :=
  c9_malformed_status initState [("f.0", "1")] [("t.1", "abc")] [("t.1", "320")]
    "abc" (by decide) (by decide) (by decide) (by decide) (by decide) (by decide)

/-- C10 (implicit, `src/terneo` variant): the mode setter translates
its input before caching — value `1` stores mode `3` and value `0`
stores mode `0` — and the model's setter neither consumes nor depends
on any POST response, so the cache write stands whatever became of the
POST; a subsequent mode property read then returns the cached `3`
(respectively `0`) with no request issued, whatever `status()` or
`is_on()` would have answered. -/
theorem c10_terneo_setter_cache (st : TState) (resp : Option Dict)
    (ion : Option (List Par)) :
    terneo_mode_setter st 1 =
      (none, { st with mode := some (.int 3) },
       [.parWrite [(125, 7, "0"), (2, 2, toString (1 : ℤ))]]) ∧
    terneo_mode_setter st 0 =
      (none, { st with mode := some (.int 0) },
       [.parWrite [(125, 7, "0"), (2, 2, toString (0 : ℤ))]]) ∧
    terneo_mode_prop (terneo_mode_setter st 1).2.1 resp ion =
      (.ok (some (.int 3)), (terneo_mode_setter st 1).2.1, []) ∧
    terneo_mode_prop (terneo_mode_setter st 0).2.1 resp ion =
      (.ok (some (.int 0)), (terneo_mode_setter st 0).2.1, []) := by
  exact ⟨rfl, rfl, rfl, rfl⟩

end Terneo
